import Mathlib

/-!
Verification of the temp-sensor-logger telemetry reconciliation pipeline.

Shallow embedding of the Python sources:
  - src/scripts/serial_uploader.py   (streaming mode: decoding, watermark dedup, upload)
  - src/scripts/backfill_sd_data.py  (bulk import: categorisation, existence dedup, paged commit)
  - src/scripts/recover_from_log_dump.py (log-dump line decoder)

Strings are modelled as lists of characters (Python compares strings
lexicographically by code point, which is exactly lexicographic comparison of
the character lists).  Python floats appearing in the decoders are modelled as
exact decimals: the claims under verification concern only parse
success/failure and absent-versus-present values, never float rounding.
Exceptions are modelled with Option/Except.
-/

/-- Python-style strings: a list of characters (code points). -/
abbrev Str := List Char

/-- Embed a Lean string literal as a character list. -/
def str (s : String) : Str := s.data

/-- Lexicographic strict comparison of character lists by code point,
exactly Python's string `<`. -/
def strLtB : Str → Str → Bool
  | [], [] => false
  | [], _ :: _ => true
  | _ :: _, [] => false
  | a :: as, b :: bs =>
    if a.toNat < b.toNat then true
    else if b.toNat < a.toNat then false
    else strLtB as bs

/-- Python string `<`. -/
def pyLt (s t : Str) : Bool := strLtB s t

/-- Python string `<=` (total order: not (t < s)). -/
def pyLe (s t : Str) : Bool := ! strLtB t s

/-- Split a character list on a separator character, Python `s.split(c)`:
always returns at least one (possibly empty) field. -/
def splitChar (c : Char) : Str → List Str
  | [] => [[]]
  | a :: rest =>
    let r := splitChar c rest
    if a = c then [] :: r
    else
      match r with
      | [] => [[a]]
      | h :: t => (a :: h) :: t

/-- ASCII whitespace as stripped by Python str.strip(). -/
def pySpace (c : Char) : Bool :=
  c = ' ' || c = '\t' || c = '\n' || c = '\r' || c.toNat = 11 || c.toNat = 12

/-- Python str.strip(): drop whitespace from both ends. -/
def pyStrip (s : Str) : Str :=
  ((s.dropWhile pySpace).reverse.dropWhile pySpace).reverse

/-- Does the list start with the given pattern (Python str.startswith)? -/
def leadsWith : Str → Str → Bool
  | [], _ => true
  | _ :: _, [] => false
  | p :: ps, c :: cs => p = c && leadsWith ps cs

/-- ASCII decimal digit test. -/
def isDigitB (c : Char) : Bool := 48 ≤ c.toNat && c.toNat ≤ 57

/-- Value of an ASCII digit. -/
def digitVal (c : Char) : Nat := c.toNat - 48

/-- Read a non-empty all-digit string as a natural number. -/
def parseNatAll (s : Str) : Option Nat :=
  if s = [] then none
  else if s.all isDigitB then some (s.foldl (fun acc c => acc * 10 + digitVal c) 0)
  else none

/-- Python int(): optional sign followed by digits (decimal subset; the call
sites only ever feed decimal tokens). -/
def parseInt? (s : Str) : Option Int :=
  match s with
  | '-' :: rest => (parseNatAll rest).map (fun n => -(n : Int))
  | '+' :: rest => (parseNatAll rest).map (fun n => (n : Int))
  | _ => (parseNatAll s).map (fun n => (n : Int))

/-- An exact decimal number: the value num / 10 ^ exp.  Used to model the
numeric values Python float() produces at the decoders: the verified claims
depend only on parse success/failure and on which decimal value a token
denotes, never on binary float rounding. -/
structure Dec where
  num : Int
  exp : Nat
deriving DecidableEq, Repr

/-- Python float() restricted to plain decimal literals (optional sign, digits
with an optional decimal point, at least one digit), kept exact.
Note float("null") raises in Python, and here parseDec? (str "null") = none. -/
def parseDec? (s : Str) : Option Dec :=
  let core : Str → Option Dec := fun t =>
    match splitChar '.' t with
    | [ip, fp] =>
      if (ip ++ fp).all isDigitB && (ip ++ fp) ≠ [] then
        some ⟨((ip ++ fp).foldl (fun acc c => acc * 10 + digitVal c) 0 : Nat), fp.length⟩
      else none
    | [ip] => (parseNatAll ip).map (fun n => ⟨(n : Int), 0⟩)
    | _ => none
  match s with
  | '-' :: rest => (core rest).map (fun q => ⟨-q.num, q.exp⟩)
  | '+' :: rest => core rest
  | _ => core s

/-! ## Calendar arithmetic

Gregorian calendar conversions (days-from-civil and its inverse), used to model
the zoneinfo America/Chicago rule consulted by `get_central_offset` and the
postgres timestamp rendering in the backfill's existence query. -/

/-- Leap year test. -/
def isLeap (y : Nat) : Bool := (y % 4 = 0 && y % 100 ≠ 0) || y % 400 = 0

/-- Days in a month. -/
def daysInMonth (y m : Nat) : Nat :=
  if m = 2 then (if isLeap y then 29 else 28)
  else if m = 4 || m = 6 || m = 9 || m = 11 then 30
  else 31

/-- Days since 0000-03-01 of a civil date (valid for year ≥ 1). -/
def daysFromCivil (y m d : Nat) : Nat :=
  let y2 := if m ≤ 2 then y - 1 else y
  let era := y2 / 400
  let yoe := y2 % 400
  let mp := (m + 9) % 12
  let doy := (153 * mp + 2) / 5 + d - 1
  let doe := yoe * 365 + yoe / 4 - yoe / 100 + doy
  era * 146097 + doe

/-- Civil date from days since 0000-03-01. -/
def civilFromDays (z : Nat) : Nat × Nat × Nat :=
  let era := z / 146097
  let doe := z % 146097
  let yoe := (doe - doe / 1460 + doe / 36524 - doe / 146096) / 365
  let y := yoe + era * 400
  let doy := doe - (365 * yoe + yoe / 4 - yoe / 100)
  let mp := (5 * doy + 2) / 153
  let d := doy - (153 * mp + 2) / 5 + 1
  let m := if mp < 10 then mp + 3 else mp - 9
  (if m ≤ 2 then y + 1 else y, m, d)

/-- Day of week, Sunday = 0 (0000-03-01 was a Wednesday). -/
def weekdayOfDays (z : Nat) : Nat := (z + 3) % 7

/-- Day of month of the first Sunday of the given month. -/
def firstSundayDay (y m : Nat) : Nat :=
  1 + (7 - weekdayOfDays (daysFromCivil y m 1)) % 7

/-- A naive wall-clock timestamp (no UTC offset). -/
structure NaiveTs where
  year : Nat
  month : Nat
  day : Nat
  hour : Nat
  minute : Nat
  second : Nat
deriving DecidableEq, Repr

/-- Seconds since 0000-03-01T00:00:00 of a naive timestamp. -/
def secsOf (t : NaiveTs) : Nat :=
  daysFromCivil t.year t.month t.day * 86400 + t.hour * 3600 + t.minute * 60 + t.second

/-- Naive timestamp from seconds since 0000-03-01T00:00:00. -/
def tsOfSecs (n : Nat) : NaiveTs :=
  let z := n / 86400
  let rem := n % 86400
  let c := civilFromDays z
  ⟨c.1, c.2.1, c.2.2, rem / 3600, rem % 3600 / 60, rem % 60⟩

/-- Parse exactly `YYYY-MM-DDTHH:MM:SS`, validating calendar ranges as Python
datetime.fromisoformat does (an out-of-range month/day/time raises there and
yields none here). -/
def parseIsoNaive (s : Str) : Option NaiveTs :=
  match s with
  | [y1, y2, y3, y4, '-', m1, m2, '-', d1, d2, 'T', h1, h2, ':', n1, n2, ':', s1, s2] =>
    if [y1, y2, y3, y4, m1, m2, d1, d2, h1, h2, n1, n2, s1, s2].all isDigitB then
      let y := digitVal y1 * 1000 + digitVal y2 * 100 + digitVal y3 * 10 + digitVal y4
      let mo := digitVal m1 * 10 + digitVal m2
      let d := digitVal d1 * 10 + digitVal d2
      let h := digitVal h1 * 10 + digitVal h2
      let mi := digitVal n1 * 10 + digitVal n2
      let se := digitVal s1 * 10 + digitVal s2
      if 1 ≤ y && 1 ≤ mo && mo ≤ 12 && 1 ≤ d && d ≤ daysInMonth y mo
          && h ≤ 23 && mi ≤ 59 && se ≤ 59 then
        some ⟨y, mo, d, h, mi, se⟩
      else none
    else none
  | _ => none

/-- Two-digit zero-padded rendering. -/
def pad2 (n : Nat) : Str :=
  [Char.ofNat (48 + n / 10 % 10), Char.ofNat (48 + n % 10)]

/-- Four-digit zero-padded rendering. -/
def pad4 (n : Nat) : Str :=
  [Char.ofNat (48 + n / 1000 % 10), Char.ofNat (48 + n / 100 % 10),
   Char.ofNat (48 + n / 10 % 10), Char.ofNat (48 + n % 10)]

/-- Render a naive timestamp as `YYYY-MM-DDTHH:MM:SS`. -/
def renderNaive (t : NaiveTs) : Str :=
  pad4 t.year ++ ['-'] ++ pad2 t.month ++ ['-'] ++ pad2 t.day ++ ['T']
    ++ pad2 t.hour ++ [':'] ++ pad2 t.minute ++ [':'] ++ pad2 t.second

/-! ## America/Chicago daylight-saving rule

The sources delegate to `zoneinfo.ZoneInfo("America/Chicago")`.  The rule for
the years in play (post-2007 US rule) is embedded here: daylight time runs from
the second Sunday of March at 2:00 local (clocks jump to 3:00) to the first
Sunday of November at 2:00 local.  `datetime.replace(tzinfo=...)` uses fold=0,
i.e. the pre-transition offset for times inside the spring-forward gap and the
earlier (daylight) interpretation inside the fall-back fold; both are captured
by the half-open local interval [second-Sunday-March 03:00, first-Sunday-Nov
02:00). -/

/-- Is the naive America/Chicago local time in daylight saving (fold=0)? -/
def isChicagoDst (t : NaiveTs) : Bool :=
  let ss := firstSundayDay t.year 3 + 7
  let fs := firstSundayDay t.year 11
  secsOf ⟨t.year, 3, ss, 3, 0, 0⟩ ≤ secsOf t && secsOf t < secsOf ⟨t.year, 11, fs, 2, 0, 0⟩

/-- backfill_sd_data.get_central_offset: the UTC-offset string (like "-06:00"
or "-05:00") of America/Chicago at the given naive local time string.  Pure
function of the input string: it parses the string and consults only the fixed
timezone rule, never the current wall clock.  A string fromisoformat cannot
parse raises there and yields none here. -/
def get_central_offset (ts_str : Str) : Option Str :=
  (parseIsoNaive ts_str).map fun dt =>
    if isChicagoDst dt then str "-05:00" else str "-06:00"

/-- Parse a UTC-offset string `+HH:MM`/`-HH:MM` to signed minutes. -/
def offsetMinutes (s : Str) : Option Int :=
  match s with
  | [sg, h1, h2, ':', m1, m2] =>
    if [h1, h2, m1, m2].all isDigitB then
      let v : Int := (digitVal h1 * 10 + digitVal h2) * 60 + (digitVal m1 * 10 + digitVal m2)
      if sg = '-' then some (-v) else if sg = '+' then some v else none
    else none
  | _ => none


/-! ## serial_uploader.py — streaming mode -/

/-- One temperature reading object of a JSON upload payload
(serial_uploader.parse_csv_line, temperature branch). -/
structure TempReadingJson where
  sensor_name : Str
  bus : Str
  pin : Int
  rom : Str
  raw_temp_c : Option Dec
  temp_c : Option Dec
  status : Str
deriving DecidableEq, Repr

/-- The environment_sensor object of a JSON upload payload. -/
structure EnvJson where
  sensor_name : Str
  sensor_type : Str
  temp_c : Dec
  humidity : Dec
  pressure_hpa : Dec
  gas_resistance_ohms : Dec
deriving DecidableEq, Repr

/-- The level_sensor object of a JSON upload payload. -/
structure LevelJson where
  sensor_name : Str
  pin : Int
  state : Str
deriving DecidableEq, Repr

/-- The JSON batch document submitted to the store
({site_id, device_id, timestamp, readings, environment_sensor?, level_sensor?}).
timestamp is Option because a generic json_data handed to upload_to_heroku may
lack the key (json_data.get('timestamp', '')). -/
structure Payload where
  site_id : Str
  device_id : Str
  timestamp : Option Str
  readings : List TempReadingJson
  environment_sensor : Option EnvJson
  level_sensor : Option LevelJson
deriving DecidableEq, Repr

/-- SITE_ID constant of serial_uploader.py and backfill_sd_data.py. -/
def SITE_ID : Str := str "industrial_site_01"

/-- The regex r'\d{4}-\d{2}-\d{2}T\d{2}:\d{2}:\d{2}' applied with re.match:
anchored at the start, extra characters after the match allowed, no calendar
validation. -/
def tsShapeMatch (s : Str) : Bool :=
  match s with
  | y1 :: y2 :: y3 :: y4 :: '-' :: m1 :: m2 :: '-' :: d1 :: d2 :: 'T'
      :: h1 :: h2 :: ':' :: n1 :: n2 :: ':' :: s1 :: s2 :: _ =>
    [y1, y2, y3, y4, m1, m2, d1, d2, h1, h2, n1, n2, s1, s2].all isDigitB
  | _ => false

/-- Model of `float(x) if x != 'null' else None` in parse_csv_line: outer none
means the float() call raised (rejecting the whole line); some none is the
decoded absent value. -/
def serialTempVal (s : Str) : Option (Option Dec) :=
  if s = str "null" then some none
  else (parseDec? s).map some

/-- serial_uploader.parse_csv_line: decode one raw CSV text line into an upload
payload, or none on rejection.  Any exception inside the try block (index
error, int()/float() failure) rejects the line.  Mirrors the source branch by
branch, including the final fallthrough that returns the payload with an empty
readings list when no sensor branch matches. -/
def parse_csv_line (line : Str) : Option Payload :=
  let parts := splitChar ',' line
  if parts.length < 3 then none
  else
    match parts.get? 0, parts.get? 1, parts.get? 2 with
    | some timestamp, some device_id, some sensor_name =>
      if ! tsShapeMatch timestamp then none
      else
        let base : Payload := ⟨SITE_ID, device_id, some timestamp, [], none, none⟩
        if 9 ≤ parts.length
            && (parts.getD 3 [] = str "A" || parts.getD 3 [] = str "B") then
          match parseInt? (parts.getD 4 []),
                serialTempVal (parts.getD 6 []), serialTempVal (parts.getD 7 []) with
          | some pin, some rawv, some calv =>
            let r : TempReadingJson :=
              ⟨sensor_name, parts.getD 3 [], pin, parts.getD 5 [], rawv, calv,
               parts.getD 8 []⟩
            some { base with readings := [r] }
          | _, _, _ => none
        else if sensor_name = str "ATM01" && 12 ≤ parts.length then
          match parseDec? (parts.getD 6 []), parseDec? (parts.getD 9 []),
                parseDec? (parts.getD 10 []), parseDec? (parts.getD 11 []) with
          | some tv, some hv, some pv, some gv =>
            let e : EnvJson := ⟨sensor_name, str "BME680", tv, hv, pv, gv⟩
            some { base with environment_sensor := some e }
          | _, _, _, _ => none
        else
          match parts.get? 3 with
          | none => none
          | some tag =>
            if tag = str "L" then
              match parts.get? 4, parts.get? 8 with
              | some pinStr, some state =>
                match parseInt? pinStr with
                | some pin =>
                  let l : LevelJson := ⟨sensor_name, pin, state⟩
                  some { base with level_sensor := some l }
                | none => none
              | _, _ => none
            else
              some base
    | _, _, _ => none

/-- Outcome of the requests.post call in upload_to_heroku: an exception, or an
HTTP status code. -/
inductive PostOutcome
  | exn
  | status (code : Nat)
deriving DecidableEq, Repr

/-- Result of one upload_to_heroku call: the watermark afterwards, whether the
network call was attempted, and whether the store confirmed the write. -/
structure UploadResult where
  watermark : Str
  called : Bool
  uploaded : Bool
deriving DecidableEq, Repr

/-- serial_uploader.upload_to_heroku: watermark dedup then POST.  The global
last_processed_timestamp is passed and returned explicitly.  The store's
response is an external input (PostOutcome). -/
def upload_to_heroku (wm : Str) (json_data : Payload) (net : PostOutcome) :
    UploadResult :=
  let ts := json_data.timestamp.getD []
  if pyLe ts wm then ⟨wm, false, false⟩
  else
    match net with
    | .exn => ⟨wm, true, false⟩
    | .status code =>
      if code = 200 || code = 201 then
        ⟨if pyLt wm ts then ts else wm, true, true⟩
      else ⟨wm, true, false⟩

/-- The STREAMING loop restricted to its watermark state: fold
upload_to_heroku over a sequence of (payload, network outcome) events. -/
def runStream (wm : Str) (events : List (Payload × PostOutcome)) : Str :=
  events.foldl (fun w e => (upload_to_heroku w e.1 e.2).watermark) wm

/-- Python str.replace('Z', '+00:00') (replaces every occurrence). -/
def replaceZ (s : Str) : Str :=
  s.flatMap fun c => if c = 'Z' then str "+00:00" else [c]

/-- An instant: seconds since 0000-03-01T00:00:00 UTC (as an Int so that
offset arithmetic cannot underflow). -/
def instantOfNaiveUtc (t : NaiveTs) : Int := (secsOf t : Int)

/-- datetime.fromisoformat on the strings fetch_latest_timestamp builds:
either a naive `YYYY-MM-DDTHH:MM:SS` (later assumed UTC) or the same followed
by a `+HH:MM`/`-HH:MM` offset.  Returns the UTC instant. -/
def parseIsoToUtcInstant (s : Str) : Option Int :=
  match parseIsoNaive s with
  | some t => some (instantOfNaiveUtc t)
  | none =>
    match parseIsoNaive (s.take 19), offsetMinutes (s.drop 19) with
    | some t, some off => some (instantOfNaiveUtc t - off * 60)
    | _, _ => none

/-- Is the UTC instant inside America/Chicago daylight saving?  (The local
transition instants 2:00 CST and 2:00 CDT are 08:00 and 07:00 UTC.) -/
def isChicagoDstUtc (i : Int) : Bool :=
  if i < 0 then false
  else
    let t := tsOfSecs i.toNat
    let ss := firstSundayDay t.year 3 + 7
    let fs := firstSundayDay t.year 11
    (secsOf ⟨t.year, 3, ss, 8, 0, 0⟩ : Int) ≤ i && i < (secsOf ⟨t.year, 11, fs, 7, 0, 0⟩ : Int)

/-- astimezone(CENTRAL_TZ) followed by strftime('%Y-%m-%dT%H:%M:%S'):
render the UTC instant as a naive America/Chicago local string. -/
def utcInstantToCentralNaive (i : Int) : Str :=
  let off : Int := if isChicagoDstUtc i then 5 * 3600 else 6 * 3600
  renderNaive (tsOfSecs (i - off).toNat)

/-- The epoch-zero watermark fallback of serial_uploader. -/
def epochTs : Str := str "1970-01-01T00:00:00"

/-- Outcome of the requests.get in fetch_latest_timestamp: an exception
(network error / timeout), or a response with a status code and a body.  A
body of none means response.json() raised (unparseable body); the inner list
holds, for each element of the 'readings' array, its optional 'timestamp'
field, and the outer Option is whether the 'readings' key is present. -/
inductive FetchOutcome
  | exn
  | resp (code : Nat) (body : Option (Option (List (Option Str))))
deriving DecidableEq, Repr

/-- serial_uploader.fetch_latest_timestamp.  Returns the Python value of the
function: some s for a string, none for Python None (which the source returns
when the first reading has no timestamp field, making the raw-string fallback
return that None).  All failure paths fall through to the fixed epoch-zero
watermark; the function always returns (non-fatal), so the pipeline proceeds. -/
def fetch_latest_timestamp (o : FetchOutcome) : Option Str :=
  match o with
  | .exn => some epochTs
  | .resp code body =>
    if code = 200 then
      match body with
      | none => some epochTs
      | some data =>
        match data with
        | none => some epochTs
        | some [] => some epochTs
        | some (r0 :: _) =>
          match r0 with
          | none => none
          | some latest_utc_str =>
            match parseIsoToUtcInstant (replaceZ latest_utc_str) with
            | some inst => some (utcInstantToCentralNaive inst)
            | none => some latest_utc_str
    else some epochTs

/-! ## recover_from_log_dump.py — log-dump line decoder -/

/-- The typed result of recover_from_log_dump.parse_line. -/
inductive ParsedData
  | temp (device_id : Str) (reading : TempReadingJson)
  | env (device_id : Str) (data : EnvJson)
  | level (device_id : Str) (data : LevelJson)
deriving DecidableEq, Repr

/-- The suffix of a string after the first occurrence of a marker substring
(Python line.split(marker, 1)[1]), or none when the marker does not occur
(Python `marker not in line`). -/
def findAfter (marker : Str) : Str → Option Str
  | [] => if marker = [] then some [] else none
  | c :: rest =>
    if leadsWith marker (c :: rest) then some ((c :: rest).drop marker.length)
    else findAfter marker rest

/-- recover_from_log_dump.parse_line: decode one journal line holding an
"[Arduino]" CSV fragment into (timestamp, typed reading), or none.  Unlike
serial_uploader.parse_csv_line, every unmatched case falls through to the
final `return None`. -/
def parse_line (line : Str) : Option (Str × ParsedData) :=
  match findAfter (str "[Arduino]") line with
  | none => none
  | some afterPart =>
    let parts := splitChar ',' (pyStrip afterPart)
    match parts.get? 0 with
    | none => none
    | some timestamp =>
      if ! tsShapeMatch timestamp then none
      else
        match parts.get? 1, parts.get? 2 with
        | some device_id, some sensor_name =>
          if 9 ≤ parts.length
              && (parts.getD 3 [] = str "A" || parts.getD 3 [] = str "B") then
            match parseInt? (parts.getD 4 []),
                  serialTempVal (parts.getD 6 []), serialTempVal (parts.getD 7 []) with
            | some pin, some rawv, some calv =>
              some (timestamp, .temp device_id
                ⟨sensor_name, parts.getD 3 [], pin, parts.getD 5 [], rawv, calv,
                 parts.getD 8 []⟩)
            | _, _, _ => none
          else if sensor_name = str "ATM01" && 12 ≤ parts.length then
            match parseDec? (parts.getD 6 []), parseDec? (parts.getD 9 []),
                  parseDec? (parts.getD 10 []), parseDec? (parts.getD 11 []) with
            | some tv, some hv, some pv, some gv =>
              some (timestamp, .env device_id ⟨sensor_name, str "BME680", tv, hv, pv, gv⟩)
            | _, _, _, _ => none
          else
            match parts.get? 3 with
            | none => none
            | some tag =>
              if tag = str "L" then
                match parts.get? 4, parts.get? 8 with
                | some pinStr, some state =>
                  (parseInt? pinStr).map
                    (fun pin => (timestamp, .level device_id ⟨sensor_name, pin, state⟩))
                | _, _ => none
              else none
        | _, _ => none

/-! ## backfill_sd_data.py — bulk import -/

/-- One CSV row of the SD dump, under the fixed header
timestamp,device_id,sensor_name,bus,pin,rom,raw_temp_c,cal_temp_c,status,humidity,pressure_hpa,gas_ohms. -/
structure CsvRow where
  timestamp : Str
  device_id : Str
  sensor_name : Str
  bus : Str
  pin : Str
  rom : Str
  raw_temp_c : Str
  cal_temp_c : Str
  status : Str
  humidity : Str
  pressure_hpa : Str
  gas_ohms : Str
deriving DecidableEq, Repr

/-- The stripped sensor name of a row. -/
def rowSensor (r : CsvRow) : Str := pyStrip r.sensor_name

/-- backfill_sd_data.parse_csv: categorise rows by sensor-name front matter
(TD… temperature, LL… level, ATM… environment; empty names dropped), keeping
file order, per the loop's if/elif/elif. -/
def parse_csv (rows : List CsvRow) : List CsvRow × List CsvRow × List CsvRow :=
  (rows.filter (fun r => rowSensor r ≠ [] && leadsWith (str "TD") (rowSensor r)),
   rows.filter (fun r => rowSensor r ≠ [] && ! leadsWith (str "TD") (rowSensor r)
     && leadsWith (str "LL") (rowSensor r)),
   rows.filter (fun r => rowSensor r ≠ [] && ! leadsWith (str "TD") (rowSensor r)
     && ! leadsWith (str "LL") (rowSensor r) && leadsWith (str "ATM") (rowSensor r)))

/-- A row of the temperature_readings table, as submitted by the backfill
INSERT (timestamp, site_id, device_id, sensor_name, bus, pin, rom, raw_temp_c,
temp_c, status). -/
structure TempInsert where
  ts : Str
  site : Str
  device : Str
  sensor : Str
  bus : Str
  pin : Int
  rom : Str
  raw_val : Option Dec
  cal_val : Option Dec
  status : Str
deriving DecidableEq, Repr

/-- A row of the level_sensor_readings table as submitted by the backfill. -/
structure LevelInsert where
  ts : Str
  site : Str
  device : Str
  sensor : Str
  pin : Int
  state : Str
deriving DecidableEq, Repr

/-- A row of the environment_readings table as submitted by the backfill. -/
structure EnvInsert where
  ts : Str
  site : Str
  device : Str
  sensor : Str
  temp_val : Option Dec
  hum_val : Option Dec
  pres_val : Option Dec
  gas_val : Option Dec
deriving DecidableEq, Repr

/-- The persistent store's three independent tables. -/
structure Store where
  temp : List TempInsert
  level : List LevelInsert
  env : List EnvInsert
deriving DecidableEq, Repr

/-- Model of `float(x) if x and x != "null" else None` in the backfill: the
token "null" and the empty string decode to the absent value; any other
unparseable token makes float() raise, which crashes the whole run (there is
no try around the backfill loops). -/
def backfillVal (s : Str) : Except Unit (Option Dec) :=
  if s ≠ [] && s ≠ str "null" then
    match parseDec? s with
    | some q => .ok (some q)
    | none => .error ()
  else .ok none

/-- The UTC instant (seconds since 0000-03-01T00:00:00 UTC) denoted by an
offset-qualified timestamp string `YYYY-MM-DDTHH:MM:SS±HH:MM`, as the store
parses the submitted db_ts. -/
def instantOfDbTs (s : Str) : Option Int :=
  match parseIsoNaive (s.take 19), offsetMinutes (s.drop 19) with
  | some t, some off => some ((secsOf t : Int) - off * 60)
  | _, _ => none

/-- The store's rendering of a stored instant in the backfill's existence
query: to_char(timestamp at time zone 'UTC', 'YYYY-MM-DD"T"HH24:MI:SS"Z"') —
the UTC wall time with a literal Z appended. -/
def utcZofInstant (i : Int) : Str := renderNaive (tsOfSecs i.toNat) ++ ['Z']

/-- backfill_sd_data.get_existing: the set of
(UTC-rendered-with-Z timestamp, sensor_name) keys of the table rows whose
instant lies in [min_ts, max_ts], the naive bound strings being parsed by the
store in its session timezone (UTC on the Heroku store).  A bound or a stored
timestamp the store cannot parse makes the query raise. -/
def get_existing {α : Type} (rowTs : α → Str) (keySensor : α → Str)
    (minTs maxTs : Str) (table : List α) : Except Unit (List (Str × Str)) :=
  match parseIsoNaive minTs, parseIsoNaive maxTs with
  | some lo, some hi =>
    table.foldr
      (fun r acc =>
        match acc, instantOfDbTs (rowTs r) with
        | .ok keys, some i =>
          if (secsOf lo : Int) ≤ i && i ≤ (secsOf hi : Int) then
            .ok ((utcZofInstant i, keySensor r) :: keys)
          else .ok keys
        | .ok _, none => .error ()
        | .error e, _ => .error e)
      (.ok [])
  | _, _ => .error ()

/-- Membership of a key in the fetched existence key set (the Python `in`
test on the set built by get_existing). -/
def keyMem (k : Str × Str) : List (Str × Str) → Bool
  | [] => false
  | x :: xs => decide (x = k) || keyMem k xs

/-- Process the temperature rows of the file against the fetched existence
keys, building the list of tuples to insert and the skip count
(backfill_sd_data.backfill, temperature loop).  UPTIME rows and rows whose
(timestamp, sensor_name) is in the existence set are skipped; a value or
timestamp the loop cannot convert crashes the whole run. -/
def processTempRows (existing : List (Str × Str)) (rows : List CsvRow) :
    Except Unit (List TempInsert × Nat) :=
  rows.foldl
    (fun acc row =>
      match acc with
      | .error e => .error e
      | .ok (ins, skip) =>
        let ts := pyStrip row.timestamp
        if leadsWith (str "UPTIME") ts then .ok (ins, skip + 1)
        else
          let sensor := pyStrip row.sensor_name
          if keyMem (ts, sensor) existing then .ok (ins, skip + 1)
          else
            match backfillVal (pyStrip row.raw_temp_c),
                  backfillVal (pyStrip row.cal_temp_c),
                  get_central_offset ts, parseInt? (pyStrip row.pin) with
            | .ok rv, .ok cv, some off, some pin =>
              .ok (ins ++ [⟨ts ++ off, SITE_ID, pyStrip row.device_id, sensor,
                pyStrip row.bus, pin, pyStrip row.rom, rv, cv,
                pyStrip row.status⟩], skip)
            | _, _, _, _ => .error ())
    (.ok ([], 0))

/-- Process the level rows (backfill_sd_data.backfill, level loop). -/
def processLevelRows (existing : List (Str × Str)) (rows : List CsvRow) :
    Except Unit (List LevelInsert × Nat) :=
  rows.foldl
    (fun acc row =>
      match acc with
      | .error e => .error e
      | .ok (ins, skip) =>
        let ts := pyStrip row.timestamp
        if leadsWith (str "UPTIME") ts then .ok (ins, skip + 1)
        else
          let sensor := pyStrip row.sensor_name
          if keyMem (ts, sensor) existing then .ok (ins, skip + 1)
          else
            match get_central_offset ts, parseInt? (pyStrip row.pin) with
            | some off, some pin =>
              .ok (ins ++ [⟨ts ++ off, SITE_ID, pyStrip row.device_id, sensor,
                pin, pyStrip row.status⟩], skip)
            | _, _ => .error ())
    (.ok ([], 0))

/-- Process the environment rows (backfill_sd_data.backfill, environment
loop).  Note each numeric field uses the same "null"/empty-to-absent decoding
as the temperature values. -/
def processEnvRows (existing : List (Str × Str)) (rows : List CsvRow) :
    Except Unit (List EnvInsert × Nat) :=
  rows.foldl
    (fun acc row =>
      match acc with
      | .error e => .error e
      | .ok (ins, skip) =>
        let ts := pyStrip row.timestamp
        if leadsWith (str "UPTIME") ts then .ok (ins, skip + 1)
        else
          let sensor := pyStrip row.sensor_name
          if keyMem (ts, sensor) existing then .ok (ins, skip + 1)
          else
            match backfillVal (pyStrip row.raw_temp_c),
                  backfillVal (pyStrip row.humidity),
                  backfillVal (pyStrip row.pressure_hpa),
                  backfillVal (pyStrip row.gas_ohms),
                  get_central_offset ts with
            | .ok tv, .ok hv, .ok pv, .ok gv, some off =>
              .ok (ins ++ [⟨ts ++ off, SITE_ID, pyStrip row.device_id, sensor,
                tv, hv, pv, gv⟩], skip)
            | _, _, _, _, _ => .error ())
    (.ok ([], 0))

/-- The page size execute_values is called with in every backfill INSERT. -/
def PAGE_SIZE : Nat := 1000

/-- Structural worker for pagesOf: the fuel only bounds the recursion depth
and is always sufficient (each step consumes at least one element, PAGE_SIZE
being positive), so the fuel-exhausted case is unreachable from pagesOf. -/
def pagesGo {α : Type} : Nat → List α → List (List α)
  | _, [] => []
  | 0, l => [l]
  | fuel + 1, a :: as => (a :: as).take PAGE_SIZE :: pagesGo fuel ((a :: as).drop PAGE_SIZE)

/-- Split an insert list into the pages execute_values sends
(page_size = 1000). -/
def pagesOf {α : Type} (l : List α) : List (List α) := pagesGo l.length l

/-- Do all pages execute without the store raising?  The failure oracle is an
external input (which page's INSERT statement fails). -/
def pagesAllOk {α : Type} (fails : Nat → Bool) (pages : List (List α)) : Bool :=
  (List.range pages.length).all fun i => ! fails i

/-- The three target categories of the bulk import. -/
inductive Category
  | tempC
  | levelC
  | envC
deriving DecidableEq, Repr

/-- Where a backfill run crashed: in one of the initial existence queries, or
while converting/inserting one category. -/
inductive BFCrash
  | query
  | cat (c : Category)
deriving DecidableEq, Repr

/-- Per-category inserted/skipped counters of a backfill run. -/
structure BackfillCounts where
  insTemp : Nat
  insLevel : Nat
  insEnv : Nat
  skipTemp : Nat
  skipLevel : Nat
  skipEnv : Nat
deriving DecidableEq, Repr

/-- The all-zero counters. -/
def zeroCounts : BackfillCounts := ⟨0, 0, 0, 0, 0, 0⟩

/-- backfill_sd_data.backfill: one whole bulk-import run over a parsed CSV
file against a store state.  The store's page-failure behaviour is an external
input (fails).  On a crash (an uncaught exception in the script) the error
value carries where it crashed together with the store as committed so far —
the category being inserted at the crash is rolled back, because conn.commit()
runs once per category, after all of that category's pages. -/
def backfillRun (fails : Category → Nat → Bool) (rows : List CsvRow)
    (store : Store) :
    Except (BFCrash × Store × BackfillCounts) (Store × BackfillCounts) :=
  let cats := parse_csv rows
  let tempRows := cats.1
  let levelRows := cats.2.1
  let envRows := cats.2.2
  if tempRows.length + levelRows.length + envRows.length = 0 then
    .ok (store, zeroCounts)
  else
    let all_ts := (tempRows ++ levelRows ++ envRows).filterMap fun r =>
      let ts := pyStrip r.timestamp
      if leadsWith (str "UPTIME") ts then none else some ts
    match all_ts with
    | [] => .ok (store, zeroCounts)
    | t0 :: trest =>
      let min_ts := trest.foldl (fun a b => if pyLt b a then b else a) t0
      let max_ts := trest.foldl (fun a b => if pyLt a b then b else a) t0
      match get_existing TempInsert.ts TempInsert.sensor min_ts max_ts store.temp,
            get_existing LevelInsert.ts LevelInsert.sensor min_ts max_ts store.level,
            get_existing EnvInsert.ts EnvInsert.sensor min_ts max_ts store.env with
      | .ok existT, .ok existL, .ok existE =>
        match processTempRows existT tempRows with
        | .error _ => .error (.cat .tempC, store, zeroCounts)
        | .ok (tIns, tSkip) =>
          let c1 := { zeroCounts with skipTemp := tSkip }
          if ! pagesAllOk (fails .tempC) (pagesOf tIns) then
            .error (.cat .tempC, store, c1)
          else
            let store1 := { store with temp := store.temp ++ tIns }
            let c2 := { c1 with insTemp := tIns.length }
            match processLevelRows existL levelRows with
            | .error _ => .error (.cat .levelC, store1, c2)
            | .ok (lIns, lSkip) =>
              let c3 := { c2 with skipLevel := lSkip }
              if ! pagesAllOk (fails .levelC) (pagesOf lIns) then
                .error (.cat .levelC, store1, c3)
              else
                let store2 := { store1 with level := store1.level ++ lIns }
                let c4 := { c3 with insLevel := lIns.length }
                match processEnvRows existE envRows with
                | .error _ => .error (.cat .envC, store2, c4)
                | .ok (eIns, eSkip) =>
                  let c5 := { c4 with skipEnv := eSkip }
                  if ! pagesAllOk (fails .envC) (pagesOf eIns) then
                    .error (.cat .envC, store2, c5)
                  else
                    let store3 := { store2 with env := store2.env ++ eIns }
                    .ok (store3, { c5 with insEnv := eIns.length })
      | _, _, _ => .error (.query, store, zeroCounts)

/-- Decidable equality of Except results, so that concrete backfill runs can
be settled by decide. -/
instance {ε α : Type} [DecidableEq ε] [DecidableEq α] : DecidableEq (Except ε α) :=
  fun x y =>
    match x, y with
    | .error e, .error f =>
      if h : e = f then isTrue (congrArg Except.error h)
      else isFalse (fun hh => h (by injection hh))
    | .ok a, .ok b =>
      if h : a = b then isTrue (congrArg Except.ok h)
      else isFalse (fun hh => h (by injection hh))
    | .error _, .ok _ => isFalse (fun hh => by injection hh)
    | .ok _, .error _ => isFalse (fun hh => by injection hh)

/-- The failure oracle of a healthy store: no page ever fails. -/
def noFail : Category → Nat → Bool := fun _ _ => false

/-- The empty store. -/
def emptyStore : Store := ⟨[], [], []⟩

/-! ## Concrete fixtures used by the claim theorems -/

/-- A well-formed temperature CSV row of the SD dump
(2026-02-19 is in the standard-offset regime). -/
def rowTD : CsvRow :=
  ⟨str "2026-02-19T08:00:00", str "arduino_node_01", str "TD01", str "A", str "2",
   str "28FF1", str "21.5", str "21.3", str "ok", str "", str "", str ""⟩

/-- The temperature_readings row the backfill submits for rowTD. -/
def rowTDInsert : TempInsert :=
  ⟨str "2026-02-19T08:00:00-06:00", SITE_ID, str "arduino_node_01", str "TD01",
   str "A", 2, str "28FF1", some ⟨215, 1⟩, some ⟨213, 1⟩, str "ok"⟩

/-- The store after one successful backfill of [rowTD] into the empty store. -/
def storeAfterTD : Store := ⟨[rowTDInsert], [], []⟩

/-- The store after backfilling [rowTD] twice into the empty store. -/
def storeAfterTDTwice : Store := ⟨[rowTDInsert, rowTDInsert], [], []⟩

/-- An environment CSV row whose humidity field is the literal token "null". -/
def envNullRow : CsvRow :=
  ⟨str "2026-02-19T08:00:00", str "arduino_node_01", str "ATM01", str "I2C", str "0",
   str "0", str "22.1", str "22.1", str "ok", str "null", str "987.3", str "12000"⟩

/-- The environment_readings row the backfill submits for envNullRow: the
humidity column is absent, not zero and not a rejection. -/
def envNullInsert : EnvInsert :=
  ⟨str "2026-02-19T08:00:00-06:00", SITE_ID, str "arduino_node_01", str "ATM01",
   some ⟨221, 1⟩, none, some ⟨9873, 1⟩, some ⟨12000, 0⟩⟩

/-- A well-formed level CSV row sharing rowTD's timestamp and device. -/
def rowLL : CsvRow :=
  ⟨str "2026-02-19T08:00:00", str "arduino_node_01", str "LL01", str "L", str "5",
   str "N/A", str "N/A", str "N/A", str "HIGH", str "", str "", str ""⟩

/-- A fully numeric environment CSV row. -/
def rowATM : CsvRow :=
  ⟨str "2026-02-19T08:00:00", str "arduino_node_01", str "ATM01", str "I2C", str "0",
   str "0", str "22.1", str "22.1", str "ok", str "45.2", str "987.3", str "12000"⟩

/-- The level_sensor_readings row the backfill submits for rowLL. -/
def rowLLInsert : LevelInsert :=
  ⟨str "2026-02-19T08:00:00-06:00", SITE_ID, str "arduino_node_01", str "LL01",
   5, str "HIGH"⟩

/-- A failure oracle on which the first page of the level INSERT fails. -/
def failLevel0 : Category → Nat → Bool :=
  fun c i => decide (c = .levelC) && decide (i = 0)

/-- A failure oracle on which the first page of the temperature INSERT fails. -/
def failTemp0 : Category → Nat → Bool :=
  fun c i => decide (c = .tempC) && decide (i = 0)

/-- The temperature-family view of a backfill outcome: the temperature table
in the final (or crash-time) store together with the temperature
inserted/skipped counters. -/
def tempView (r : Except (BFCrash × Store × BackfillCounts) (Store × BackfillCounts)) :
    List TempInsert × Nat × Nat :=
  match r with
  | .ok (s, c) => (s.temp, c.insTemp, c.skipTemp)
  | .error (_, s, c) => (s.temp, c.insTemp, c.skipTemp)

/-- A raw temperature CSV line as received over the serial link. -/
def tLine : Str := str "2026-02-19T08:00:00,arduino_node_01,TD01,A,2,28FF1,21.5,21.3,ok"

/-- A raw level CSV line with the same timestamp and device as tLine. -/
def lLine : Str := str "2026-02-19T08:00:00,arduino_node_01,LL01,L,5,N/A,N/A,N/A,HIGH"

/-- The payload parse_csv_line decodes from tLine. -/
def ptTemp : Payload :=
  ⟨SITE_ID, str "arduino_node_01", some (str "2026-02-19T08:00:00"),
   [⟨str "TD01", str "A", 2, str "28FF1", some ⟨215, 1⟩, some ⟨213, 1⟩, str "ok"⟩],
   none, none⟩

/-- The payload parse_csv_line decodes from lLine. -/
def plLevel : Payload :=
  ⟨SITE_ID, str "arduino_node_01", some (str "2026-02-19T08:00:00"), [],
   none, some ⟨str "LL01", 5, str "HIGH"⟩⟩

/-- A raw line with exactly 4 comma-separated fields and a valid leading
timestamp. -/
def fourFieldLine : Str := str "2026-02-19T08:00:00,dev1,TD01,A"

/-! ## Order lemmas for the Python string comparison -/

/-- No string is below itself. -/
lemma strLtB_irrefl (l : Str) : strLtB l l = false := by
  induction l with
  | nil => rfl
  | cons a as ih => simp [strLtB, ih]

/-- Nothing is below the empty string. -/
lemma strLtB_nil_right (l : Str) : strLtB l [] = false := by
  cases l <;> rfl

/-- Asymmetry of the strict comparison. -/
lemma strLtB_asymm {a b : Str} (h : strLtB a b = true) : strLtB b a = false := by
  induction a generalizing b with
  | nil =>
    cases b with
    | nil => simp [strLtB] at h
    | cons y ys => rfl
  | cons x xs ih =>
    cases b with
    | nil => simp [strLtB] at h
    | cons y ys =>
      simp only [strLtB] at h ⊢
      by_cases h1 : x.toNat < y.toNat
      · have h2 : ¬ y.toNat < x.toNat := by omega
        simp [h1, h2]
      · by_cases h2 : y.toNat < x.toNat
        · simp [h1, h2] at h
        · simp [h1, h2] at h ⊢
          exact ih h

/-- Transitivity of the non-strict comparison, phrased on strLtB. -/
lemma strLtB_le_trans {x y z : Str} (h1 : strLtB x y = false)
    (h2 : strLtB y z = false) : strLtB x z = false := by
  induction x generalizing y z with
  | nil =>
    cases y with
    | nil =>
      cases z with
      | nil => rfl
      | cons c cs => simp [strLtB] at h2
    | cons b bs => simp [strLtB] at h1
  | cons a as ih =>
    cases z with
    | nil => exact strLtB_nil_right _
    | cons c cs =>
      cases y with
      | nil => simp [strLtB] at h2
      | cons b bs =>
        simp only [strLtB] at h1 h2 ⊢
        by_cases hab : a.toNat < b.toNat
        · simp [hab] at h1
        · by_cases hbc : b.toNat < c.toNat
          · simp [hbc] at h2
          · have hac : ¬ a.toNat < c.toNat := by omega
            by_cases hca : c.toNat < a.toNat
            · simp [hac, hca]
            · simp [hac, hca]
              have hba : ¬ b.toNat < a.toNat := by omega
              have hcb : ¬ c.toNat < b.toNat := by omega
              simp [hab, hba] at h1
              simp [hbc, hcb] at h2
              exact ih h1 h2

/-- Transitivity of pyLe. -/
lemma pyLe_trans {a b c : Str} (h1 : pyLe a b = true) (h2 : pyLe b c = true) :
    pyLe a c = true := by
  simp only [pyLe, Bool.not_eq_true'] at h1 h2 ⊢
  exact strLtB_le_trans h2 h1

/-- One upload call never lowers the watermark. -/
lemma upload_watermark_le (wm : Str) (p : Payload) (net : PostOutcome) :
    pyLe wm (upload_to_heroku wm p net).watermark = true := by
  unfold upload_to_heroku pyLe
  by_cases hs : strLtB wm (p.timestamp.getD []) = true
  · have ha : strLtB (p.timestamp.getD []) wm = false := strLtB_asymm hs
    cases net with
    | exn => simp [hs, strLtB_irrefl]
    | status code =>
      by_cases hc : (decide (code = 200) || decide (code = 201)) = true
      · simp [hs, hc, pyLt, ha]
      · simp [hs, hc, strLtB_irrefl]
  · rw [Bool.not_eq_true] at hs
    simp [hs, strLtB_irrefl]

/-- The watermark never decreases across a whole streaming run. -/
lemma runStream_le (wm : Str) (events : List (Payload × PostOutcome)) :
    pyLe wm (runStream wm events) = true := by
  induction events generalizing wm with
  | nil => simp [runStream, pyLe, strLtB_irrefl]
  | cons e es ih =>
    have h1 := upload_watermark_le wm e.1 e.2
    have h2 := ih (upload_to_heroku wm e.1 e.2).watermark
    simp only [runStream, List.foldl] at h2 ⊢
    exact pyLe_trans h1 h2

/-- Claim C2: across any sequence of STREAMING events the watermark
(last_processed_timestamp) never decreases; a single upload_to_heroku call
changes it only when the store confirmed the write (status 200/201) of a
payload whose timestamp is strictly greater than the current watermark, in
which case it becomes that timestamp; whenever the write is not confirmed
(skip, exception, or non-success status) the watermark is unchanged. -/
theorem C2_watermark_monotonic :
    (∀ (wm : Str) (events : List (Payload × PostOutcome)),
      pyLe wm (runStream wm events) = true) ∧
    (∀ (wm : Str) (p : Payload) (net : PostOutcome),
      ((upload_to_heroku wm p net).watermark ≠ wm →
        (upload_to_heroku wm p net).uploaded = true ∧
        pyLt wm (p.timestamp.getD []) = true ∧
        (upload_to_heroku wm p net).watermark = p.timestamp.getD []) ∧
      ((upload_to_heroku wm p net).uploaded = false →
        (upload_to_heroku wm p net).watermark = wm)) := by
  refine ⟨runStream_le, ?_⟩
  intro wm p net
  unfold upload_to_heroku
  by_cases hs : strLtB wm (p.timestamp.getD []) = true
  · cases net with
    | exn => simp [pyLe, hs]
    | status code =>
      by_cases hc : (decide (code = 200) || decide (code = 201)) = true
      · simp [pyLe, hs, hc, pyLt]
      · simp [pyLe, hs, hc]
  · rw [Bool.not_eq_true] at hs
    simp [pyLe, hs]

/-- Witness for C2 at concrete inputs: a confirmed later write moves the
watermark to the payload's timestamp, and a failed write leaves it unchanged. -/
theorem C2_watermark_monotonic_witness :
    (upload_to_heroku epochTs
      ⟨SITE_ID, str "dev1", some (str "2026-02-19T08:00:00"), [], none, none⟩
      (.status 200)).watermark = str "2026-02-19T08:00:00" ∧
    (upload_to_heroku epochTs
      ⟨SITE_ID, str "dev1", some (str "2026-02-19T08:00:00"), [], none, none⟩
      (.status 500)).watermark = epochTs := by
  constructor
  · exact ((C2_watermark_monotonic.2 epochTs
      ⟨SITE_ID, str "dev1", some (str "2026-02-19T08:00:00"), [], none, none⟩
      (.status 200)).1 (by decide)).2.2
  · exact (C2_watermark_monotonic.2 epochTs
      ⟨SITE_ID, str "dev1", some (str "2026-02-19T08:00:00"), [], none, none⟩
      (.status 500)).2 (by decide)

/-- Claim C10: a payload whose timestamp field is absent or empty is always
skipped by upload_to_heroku — no network call is attempted and the watermark
is unchanged — because the empty string compares less-or-equal to every
watermark under the string comparison the dedup uses. -/
theorem C10_empty_timestamp_skipped :
    ∀ (wm : Str) (p : Payload) (net : PostOutcome),
      p.timestamp = none ∨ p.timestamp = some [] →
      upload_to_heroku wm p net = ⟨wm, false, false⟩ ∧ pyLe [] wm = true := by
  intro wm p net h
  have hts : p.timestamp.getD [] = [] := by
    rcases h with h | h <;> simp [h]
  have hle : pyLe [] wm = true := by
    simp [pyLe, strLtB_nil_right]
  refine ⟨?_, hle⟩
  unfold upload_to_heroku
  rw [hts]
  simp [hle]

/-- Witness for C10: a concrete payload with no timestamp key against the
epoch watermark. -/
theorem C10_empty_timestamp_skipped_witness :
    upload_to_heroku epochTs ⟨SITE_ID, str "dev1", none, [], none, none⟩ .exn =
      ⟨epochTs, false, false⟩ ∧ pyLe [] epochTs = true :=
  C10_empty_timestamp_skipped epochTs
    ⟨SITE_ID, str "dev1", none, [], none, none⟩ .exn (Or.inl rfl)

/-- Claim C8: the timestamp normalizer is a pure function of its input string
(get_central_offset parses the string and consults only the fixed
America/Chicago rule — by construction it takes no clock input); January 15
normalizes to the standard offset -06:00, July 15 to the daylight offset
-05:00, and the two offsets differ by exactly one hour (60 minutes). -/
theorem C8_normalizer_offsets :
    get_central_offset (str "2026-01-15T08:00:00") = some (str "-06:00") ∧
    get_central_offset (str "2026-07-15T08:00:00") = some (str "-05:00") ∧
    offsetMinutes (str "-06:00") = some (-360) ∧
    offsetMinutes (str "-05:00") = some (-300) ∧
    (-300 : Int) - (-360 : Int) = 60 := by
  refine ⟨by decide, by decide, by decide, by decide, by decide⟩

/-- Claim C9: every failure mode of the watermark-sync query — a network
exception, a non-200 status, and a response body that cannot be parsed as
JSON — makes fetch_latest_timestamp return the fixed epoch-zero watermark
"1970-01-01T00:00:00" instead of raising (fail-open), so the pipeline
proceeds with that fallback. -/
theorem C9_watermark_sync_failopen :
    fetch_latest_timestamp .exn = some epochTs ∧
    (∀ (code : Nat) (body : Option (Option (List (Option Str)))),
      code ≠ 200 → fetch_latest_timestamp (.resp code body) = some epochTs) ∧
    fetch_latest_timestamp (.resp 200 none) = some epochTs := by
  refine ⟨rfl, ?_, rfl⟩
  intro code body h
  unfold fetch_latest_timestamp
  simp [h]

/-- Witness for C9: a 500 response with an unreadable body. -/
theorem C9_watermark_sync_failopen_witness :
    fetch_latest_timestamp (.resp 500 none) = some epochTs :=
  C9_watermark_sync_failopen.2.1 500 none (by decide)

/-- Claim C5: in both decoders of TemperatureReading values (the streaming
parse_csv_line value conversion and the backfill loop's), the token "null"
decodes to the absent value (not zero), and any token denoting a decimal
number decodes to exactly that number; the concrete spec line with a "null"
raw field decodes raw_value = absent, calibrated = 21.3. -/
theorem C5_temp_null_absent :
    serialTempVal (str "null") = some none ∧
    backfillVal (str "null") = .ok none ∧
    (∀ (s : Str) (q : Dec), parseDec? s = some q →
      serialTempVal s = some (some q) ∧ backfillVal s = .ok (some q)) ∧
    (parse_csv_line (str "2026-02-19T08:00:00,dev1,TD01,A,2,28FF1,null,21.3,ok")).map
      (fun p => p.readings.map fun r => (r.raw_temp_c, r.temp_c)) =
      some [(none, some ⟨213, 1⟩)] := by
  refine ⟨by decide, by decide, ?_, by decide⟩
  intro s q hq
  have hnull : s ≠ str "null" := by
    intro he
    rw [he, (by decide : parseDec? (str "null") = none)] at hq
    exact Option.noConfusion hq
  have hemp : s ≠ [] := by
    intro he
    rw [he, (by decide : parseDec? ([] : Str) = none)] at hq
    exact Option.noConfusion hq
  constructor
  · simp [serialTempVal, hnull, hq]
  · simp [backfillVal, hemp, hnull, hq]

/-- Witness for C5 at the token "21.5". -/
theorem C5_temp_null_absent_witness :
    serialTempVal (str "21.5") = some (some ⟨215, 1⟩) ∧
    backfillVal (str "21.5") = .ok (some ⟨215, 1⟩) :=
  C5_temp_null_absent.2.2.1 (str "21.5") ⟨215, 1⟩ (by decide)

/-- Claim C1 (code-bug demonstration): backfilling the one-row file [rowTD]
into the empty store commits the row, and backfilling the very same file a
second time inserts the same row AGAIN (inserted = 1, skipped = 0) instead of
skipping it: the existence keys fetched by get_existing are UTC renderings
with a literal "Z" suffix ("2026-02-19T14:00:00Z") while the CSV comparison
key is the naive local string ("2026-02-19T08:00:00"), so the dedup test can
never match — contradicting both the claim and the script's own
documentation that existing (timestamp, sensor_name) rows are skipped. -/
theorem C1_second_run_reinserts :
    backfillRun noFail [rowTD] emptyStore = .ok (storeAfterTD, ⟨1, 0, 0, 0, 0, 0⟩) ∧
    backfillRun noFail [rowTD] storeAfterTD =
      .ok (storeAfterTDTwice, ⟨1, 0, 0, 0, 0, 0⟩) := by
  refine ⟨by decide, by decide⟩

/-- Counterexample to C4: the bulk import decodes envNullRow — an
EnvironmentReading row whose humidity field is the literal token "null" —
into a row with an ABSENT humidity value and inserts it (inserted = 1), so a
malformed number in an environment field does not reject the row there. -/
theorem C4_counterexample_backfill_null_absent :
    backfillRun noFail [envNullRow] emptyStore =
      .ok (⟨[], [], [envNullInsert]⟩, ⟨0, 0, 1, 0, 0, 0⟩) ∧
    envNullInsert.hum_val = none := by
  refine ⟨by decide, rfl⟩

/-- Counterexample to C6: with the file [rowTD, rowLL, rowATM] and a store
whose level INSERT fails on its first page, the run crashes during the level
category: the already-committed temperature page survives, but the
environment page — whose INSERT would not have failed — is never attempted
(env table empty, inserted env = 0), so remaining pages are NOT attempted
after a page failure. -/
theorem C6_counterexample_page_failure_aborts_run :
    backfillRun failLevel0 [rowTD, rowLL, rowATM] emptyStore =
      .error (.cat .levelC, storeAfterTD, ⟨1, 0, 0, 0, 0, 0⟩) ∧
    failLevel0 .envC 0 = false ∧
    backfillRun noFail [rowATM] emptyStore ≠ .error (.cat .envC, emptyStore, zeroCounts) := by
  refine ⟨by decide, by decide, by decide⟩

/-- Counterexample to C7: a raw line with exactly 4 comma-separated fields on
which parse_csv_line does NOT return a rejection — it returns a payload (with
an empty readings list) instead of None. -/
theorem C7_counterexample_four_fields_not_rejected :
    (splitChar ',' fourFieldLine).length = 4 ∧
    parse_csv_line fourFieldLine =
      some ⟨SITE_ID, str "dev1", some (str "2026-02-19T08:00:00"), [], none, none⟩ := by
  refine ⟨by decide, by decide⟩

/-- Counterexample to C3: under the streaming watermark strategy the sensor
families are NOT independent.  From the epoch watermark the level payload
plLevel (same timestamp and device as the temperature payload ptTemp) would
be admitted and uploaded; but after ptTemp's confirmed upload has advanced
the single shared watermark, the very same level payload is rejected without
even a network call — its acceptance depends on the prior admission of the
temperature family. -/
theorem C3_counterexample_streaming_cross_family :
    parse_csv_line tLine = some ptTemp ∧
    parse_csv_line lLine = some plLevel ∧
    (upload_to_heroku epochTs plLevel (.status 200)).uploaded = true ∧
    (upload_to_heroku epochTs ptTemp (.status 200)).watermark =
      str "2026-02-19T08:00:00" ∧
    (upload_to_heroku (str "2026-02-19T08:00:00") plLevel (.status 200)).called = false ∧
    (upload_to_heroku (str "2026-02-19T08:00:00") plLevel (.status 200)).uploaded =
      false := by
  refine ⟨by decide, by decide, by decide, by decide, by decide, by decide⟩

/-- An index below the length reads back as some of the default-read value. -/
lemma get_eq_some_getD {α : Type} (l : List α) (d : α) (i : Nat) (h : i < l.length) :
    l.get? i = some (l.getD i d) := by
  cases hg : l.get? i with
  | none =>
    rw [List.get?_eq_none] at hg
    omega
  | some a =>
    have : l.getD i d = a := by
      unfold List.getD
      rw [hg]
      rfl
    rw [this]

/-- Claim C4 as amended: in the STREAMING line decoder an EnvironmentReading
line (sensor ATM01, at least 12 fields, not dispatched as temperature) whose
temperature, humidity, pressure or gas field fails float() — including the
literal token "null" — is rejected whole (None); in the BULK import, however,
the tokens "null" and the empty string decode to an absent value (no
rejection), and only other malformed numbers abort the run. -/
theorem C4_env_malformed :
    (∀ (line : Str),
      12 ≤ (splitChar ',' line).length →
      tsShapeMatch ((splitChar ',' line).getD 0 []) = true →
      (splitChar ',' line).getD 2 [] = str "ATM01" →
      (splitChar ',' line).getD 3 [] ≠ str "A" →
      (splitChar ',' line).getD 3 [] ≠ str "B" →
      (parseDec? ((splitChar ',' line).getD 6 []) = none ∨
       parseDec? ((splitChar ',' line).getD 9 []) = none ∨
       parseDec? ((splitChar ',' line).getD 10 []) = none ∨
       parseDec? ((splitChar ',' line).getD 11 []) = none) →
      parse_csv_line line = none) ∧
    parseDec? (str "null") = none ∧
    backfillVal (str "null") = .ok none ∧
    backfillVal ([] : Str) = .ok none ∧
    backfillVal (str "abc") = .error () := by
  refine ⟨?_, by decide, by decide, by decide, by decide⟩
  intro line hlen h0 h2 h3a h3b hbad
  unfold parse_csv_line
  generalize hP : splitChar ',' line = parts at *
  rcases parts with _ | ⟨a0, _ | ⟨a1, _ | ⟨a2, _ | ⟨a3, _ | ⟨a4, _ | ⟨a5, _ | ⟨a6,
    _ | ⟨a7, _ | ⟨a8, _ | ⟨a9, _ | ⟨a10, _ | ⟨a11, rest⟩⟩⟩⟩⟩⟩⟩⟩⟩⟩⟩⟩ <;> simp at hlen
  simp only [List.getD, List.get?, Option.getD] at h0 h2 h3a h3b hbad
  simp [h0, h2, h3a, h3b]
  rcases hbad with hb | hb | hb | hb
  · cases h9 : parseDec? a9 <;> cases h10 : parseDec? a10 <;>
      cases h11 : parseDec? a11 <;> simp [hb, h9, h10, h11]
  · cases h6 : parseDec? a6 <;> cases h10 : parseDec? a10 <;>
      cases h11 : parseDec? a11 <;> simp [hb, h6, h10, h11]
  · cases h6 : parseDec? a6 <;> cases h9 : parseDec? a9 <;>
      cases h11 : parseDec? a11 <;> simp [hb, h6, h9, h11]
  · cases h6 : parseDec? a6 <;> cases h9 : parseDec? a9 <;>
      cases h10 : parseDec? a10 <;> simp [hb, h6, h9, h10]

/-- Witness for the streaming half of C4 at the concrete ATM01 line with a
"null" humidity field. -/
theorem C4_env_malformed_witness :
    parse_csv_line
      (str "2026-02-19T08:00:00,dev1,ATM01,I2C,0,0,22.1,22.1,ok,null,987.3,12000") =
      none :=
  C4_env_malformed.1 _ (by decide) (by decide) (by decide) (by decide) (by decide)
    (Or.inr (Or.inl (by decide)))

/-- splitChar never returns the empty list. -/
lemma splitChar_ne_nil (c : Char) (l : Str) : splitChar c l ≠ [] := by
  cases l with
  | nil => simp [splitChar]
  | cons a rest =>
    simp only [splitChar]
    by_cases h : a = c
    · simp [h]
    · simp only [h, if_false]
      cases splitChar c rest <;> simp

/-- The number of fields returned by splitChar is the separator count plus
one. -/
lemma splitChar_length (c : Char) (l : Str) :
    (splitChar c l).length = l.count c + 1 := by
  induction l with
  | nil => simp [splitChar]
  | cons a rest ih =>
    simp only [splitChar]
    by_cases h : a = c
    · simp [h, ih, List.count_cons]
    · obtain ⟨hd, tl, heq⟩ := List.exists_cons_of_ne_nil (splitChar_ne_nil c rest)
      rw [heq] at ih
      simp [h, heq, List.count_cons]
      simp at ih
      omega

/-- Stripping whitespace cannot increase the count of any character. -/
lemma count_pyStrip_le (s : Str) (c : Char) : (pyStrip s).count c ≤ s.count c := by
  unfold pyStrip
  have h1 : (((s.dropWhile pySpace).reverse.dropWhile pySpace).reverse).count c =
      ((s.dropWhile pySpace).reverse.dropWhile pySpace).count c := List.count_reverse ..
  have h2 : ((s.dropWhile pySpace).reverse.dropWhile pySpace).count c ≤
      ((s.dropWhile pySpace).reverse).count c :=
    (List.dropWhile_sublist _ ).count_le c
  have h3 : ((s.dropWhile pySpace).reverse).count c = (s.dropWhile pySpace).count c :=
    List.count_reverse ..
  have h4 : (s.dropWhile pySpace).count c ≤ s.count c :=
    (List.dropWhile_sublist _ ).count_le c
  omega

/-- The text after the marker has no more separators than the whole line. -/
lemma findAfter_count_le (m : Str) (l r : Str) (h : findAfter m l = some r)
    (c : Char) : r.count c ≤ l.count c := by
  induction l generalizing r with
  | nil =>
    unfold findAfter at h
    by_cases hm : m = []
    · simp [hm] at h
      simp [h.symm]
    · simp [hm] at h
  | cons a rest ih =>
    unfold findAfter at h
    by_cases hw : leadsWith m (a :: rest) = true
    · simp only [hw, if_true] at h
      have : r = (a :: rest).drop m.length := by
        injection h with h2
        exact h2.symm
      rw [this]
      exact (List.drop_sublist _ _ ).count_le c
    · simp only [hw, Bool.false_eq_true, if_false] at h
      have h4 := ih r h
      have h5 : rest.count c ≤ (a :: rest).count c :=
        (List.sublist_cons_self a rest).count_le c
      omega

/-- Claim C7 as amended: on a raw text line with exactly 4 comma-separated
fields, recover_from_log_dump's parse_line always returns a rejection (None);
serial_uploader's parse_csv_line returns None when the leading timestamp
shape is invalid or the fourth field is "L", but otherwise returns an EMPTY
payload (no readings, no environment sensor, no level sensor) rather than
None. -/
theorem C7_four_field_line :
    ∀ (line : Str), (splitChar ',' line).length = 4 →
      parse_line line = none ∧
      (parse_csv_line line = none ∨
        ∃ p, parse_csv_line line = some p ∧ p.readings = [] ∧
          p.environment_sensor = none ∧ p.level_sensor = none) := by
  intro line hlen
  constructor
  · unfold parse_line
    cases hf : findAfter (str "[Arduino]") line with
    | none => rfl
    | some after =>
      have hcount : line.count ',' = 3 := by
        have := splitChar_length ',' line
        omega
      have hc2 : (pyStrip after).count ',' ≤ 3 := by
        have ha := count_pyStrip_le after ','
        have hb := findAfter_count_le _ _ _ hf ','
        omega
      have hplen : (splitChar ',' (pyStrip after)).length ≤ 4 := by
        rw [splitChar_length]
        omega
      generalize hP : splitChar ',' (pyStrip after) = parts at hplen
      simp only [hP]
      rcases parts with _ | ⟨a0, _ | ⟨a1, _ | ⟨a2, _ | ⟨a3, rest⟩⟩⟩⟩
      · rfl
      · by_cases hr : tsShapeMatch a0 = true <;> simp [hr]
      · by_cases hr : tsShapeMatch a0 = true <;> simp [hr]
      · by_cases hr : tsShapeMatch a0 = true <;> simp [hr]
      · have hrest : rest = [] := by
          refine List.eq_nil_of_length_eq_zero ?_
          simp only [List.length_cons] at hplen
          omega
        subst hrest
        by_cases hr : tsShapeMatch a0 = true
        · by_cases ht : a3 = str "L" <;> simp [hr, ht]
        · simp [hr]
  · unfold parse_csv_line
    generalize hP : splitChar ',' line = parts at hlen ⊢
    rcases parts with _ | ⟨a0, _ | ⟨a1, _ | ⟨a2, _ | ⟨a3, rest⟩⟩⟩⟩ <;> simp at hlen
    have hrest : rest = [] := by simpa using hlen
    subst hrest
    by_cases hr : tsShapeMatch a0 = true
    · by_cases ht : a3 = str "L"
      · left
        simp [hr, ht]
      · right
        refine ⟨⟨SITE_ID, a1, some a0, [], none, none⟩, ?_, rfl, rfl, rfl⟩
        simp [hr, ht]
    · left
      simp [hr]

/-- Witness for C7 at the concrete 4-field line. -/
theorem C7_four_field_line_witness :
    parse_line fourFieldLine = none ∧
    (parse_csv_line fourFieldLine = none ∨
      ∃ p, parse_csv_line fourFieldLine = some p ∧ p.readings = [] ∧
        p.environment_sensor = none ∧ p.level_sensor = none) :=
  C7_four_field_line fourFieldLine (by decide)

/-- Every page produced by pagesGo under sufficient fuel is bounded by the
page size. -/
lemma pagesGo_length_le {α : Type} (fuel : Nat) (l : List α) (hf : l.length ≤ fuel) :
    ∀ p ∈ pagesGo fuel l, p.length ≤ PAGE_SIZE := by
  induction fuel generalizing l with
  | zero =>
    cases l with
    | nil => simp [pagesGo]
    | cons a as => simp at hf
  | succ n ih =>
    cases l with
    | nil => simp [pagesGo]
    | cons a as =>
      intro p hp
      simp only [pagesGo, List.mem_cons] at hp
      rcases hp with rfl | hp
      · simp [List.length_take]
      · refine ih _ ?_ p hp
        simp only [List.length_drop, List.length_cons] at *
        simp only [PAGE_SIZE]
        omega

/-- Concatenating the pages gives back the original list. -/
lemma pagesGo_join {α : Type} (fuel : Nat) (l : List α) (hf : l.length ≤ fuel) :
    (pagesGo fuel l).flatten = l := by
  induction fuel generalizing l with
  | zero =>
    cases l with
    | nil => simp [pagesGo]
    | cons a as => simp at hf
  | succ n ih =>
    cases l with
    | nil => simp [pagesGo]
    | cons a as =>
      simp only [pagesGo, List.flatten]
      rw [ih]
      · exact List.take_append_drop _ _
      · simp only [List.length_drop, List.length_cons] at *
        simp only [PAGE_SIZE]
        omega

/-- Pages of an insert list are bounded by the page size (1000). -/
lemma pagesOf_length_le {α : Type} (l : List α) :
    ∀ p ∈ pagesOf l, p.length ≤ PAGE_SIZE :=
  pagesGo_length_le l.length l le_rfl

/-- The pages of an insert list concatenate back to the list: nothing is lost
or duplicated by paging. -/
lemma pagesOf_join {α : Type} (l : List α) : (pagesOf l).flatten = l :=
  pagesGo_join l.length l le_rfl

/-- Claim C6 as amended: writes are paged with bounded page size (each page
holds at most 1000 rows and the pages concatenate back to the insert list),
but a page failure does NOT abort only that page: the run raises out of the
whole backfill — the failing category's rows are rolled back entirely (its
conn.commit() never runs) and every later category is never attempted —
while categories committed before the failure do remain committed. -/
theorem C6_paged_commit :
    (∀ (l : List TempInsert),
      (∀ p ∈ pagesOf l, p.length ≤ PAGE_SIZE) ∧ (pagesOf l).flatten = l) ∧
    (∀ (fails : Category → Nat → Bool) (rows : List CsvRow) (store : Store)
       (cr : BFCrash) (s : Store) (cnt : BackfillCounts),
      backfillRun fails rows store = .error (cr, s, cnt) →
      (cr = .query → s = store) ∧
      (cr = .cat .tempC → s = store) ∧
      (cr = .cat .levelC →
        (∃ t, s.temp = store.temp ++ t) ∧ s.level = store.level ∧ s.env = store.env) ∧
      (cr = .cat .envC →
        (∃ t, s.temp = store.temp ++ t) ∧ (∃ u, s.level = store.level ++ u) ∧
        s.env = store.env)) := by
  constructor
  · intro l
    exact ⟨pagesOf_length_le l, pagesOf_join l⟩
  · intro fails rows store cr s cnt h
    simp only [backfillRun] at h
    split at h
    · exact absurd h (by simp)
    · split at h
      · exact absurd h (by simp)
      · split at h
        rotate_left
        · simp only [Except.error.injEq, Prod.mk.injEq] at h
          obtain ⟨h1, h2, h3⟩ := h
          subst h1 h2 h3
          exact ⟨fun _ => rfl, fun hq => by simp at hq, fun hq => by simp at hq,
            fun hq => by simp at hq⟩
        · split at h
          · simp only [Except.error.injEq, Prod.mk.injEq] at h
            obtain ⟨h1, h2, h3⟩ := h
            subst h1 h2 h3
            exact ⟨fun hq => by simp at hq, fun _ => rfl, fun hq => by simp at hq,
              fun hq => by simp at hq⟩
          · split at h
            · simp only [Except.error.injEq, Prod.mk.injEq] at h
              obtain ⟨h1, h2, h3⟩ := h
              subst h1 h2 h3
              exact ⟨fun hq => by simp at hq, fun _ => rfl, fun hq => by simp at hq,
                fun hq => by simp at hq⟩
            · split at h
              · simp only [Except.error.injEq, Prod.mk.injEq] at h
                obtain ⟨h1, h2, h3⟩ := h
                subst h1 h2 h3
                refine ⟨fun hq => by simp at hq, fun hq => by simp at hq,
                  fun _ => ⟨⟨_, rfl⟩, rfl, rfl⟩, fun hq => by simp at hq⟩
              · split at h
                · simp only [Except.error.injEq, Prod.mk.injEq] at h
                  obtain ⟨h1, h2, h3⟩ := h
                  subst h1 h2 h3
                  refine ⟨fun hq => by simp at hq, fun hq => by simp at hq,
                    fun _ => ⟨⟨_, rfl⟩, rfl, rfl⟩, fun hq => by simp at hq⟩
                · split at h
                  · simp only [Except.error.injEq, Prod.mk.injEq] at h
                    obtain ⟨h1, h2, h3⟩ := h
                    subst h1 h2 h3
                    refine ⟨fun hq => by simp at hq, fun hq => by simp at hq,
                      fun hq => by simp at hq,
                      fun _ => ⟨⟨_, rfl⟩, ⟨_, rfl⟩, rfl⟩⟩
                  · split at h
                    · simp only [Except.error.injEq, Prod.mk.injEq] at h
                      obtain ⟨h1, h2, h3⟩ := h
                      subst h1 h2 h3
                      refine ⟨fun hq => by simp at hq, fun hq => by simp at hq,
                        fun hq => by simp at hq,
                        fun _ => ⟨⟨_, rfl⟩, ⟨_, rfl⟩, rfl⟩⟩
                    · exact absurd h (by simp)

/-- A confirmed upload moves the watermark exactly to the payload's
timestamp. -/
lemma upload_success_watermark (wm : Str) (p : Payload) (net : PostOutcome)
    (hu : (upload_to_heroku wm p net).uploaded = true) :
    (upload_to_heroku wm p net).watermark = p.timestamp.getD [] := by
  unfold upload_to_heroku at hu ⊢
  by_cases hs : strLtB wm (p.timestamp.getD []) = true
  · cases net with
    | exn => simp [pyLe, hs] at hu
    | status code =>
      by_cases hc : (decide (code = 200) || decide (code = 201)) = true
      · simp [pyLe, hs, hc, pyLt]
      · simp [pyLe, hs, hc] at hu
  · rw [Bool.not_eq_true] at hs
    simp [pyLe, hs] at hu

/-- A payload at or below the watermark is skipped outright. -/
lemma upload_skip (wm : Str) (p : Payload) (net : PostOutcome)
    (hle : pyLe (p.timestamp.getD []) wm = true) :
    upload_to_heroku wm p net = ⟨wm, false, false⟩ := by
  unfold upload_to_heroku
  simp [hle]

/-- Claim C3 as amended: under the BULK existence strategy the temperature
family is independent of the other families — two stores with the same
temperature table (arbitrary level/environment tables) give completed
backfill runs identical temperature results (same inserted and skipped
counters, same newly appended temperature rows).  Under the STREAMING
watermark strategy the families are NOT independent: after any confirmed
upload, every payload (of any family) whose timestamp is less than or equal
to the committed one is rejected without a network call. -/
theorem C3_family_independence :
    (∀ (fails : Category → Nat → Bool) (rows : List CsvRow) (store store' : Store)
       (s : Store) (c : BackfillCounts) (s' : Store) (c' : BackfillCounts),
      store'.temp = store.temp →
      backfillRun fails rows store = .ok (s, c) →
      backfillRun fails rows store' = .ok (s', c') →
      c'.insTemp = c.insTemp ∧ c'.skipTemp = c.skipTemp ∧
      s.temp.drop store.temp.length = s'.temp.drop store'.temp.length) ∧
    (∀ (wm : Str) (p q : Payload) (net net' : PostOutcome),
      (upload_to_heroku wm p net).uploaded = true →
      pyLe (q.timestamp.getD []) (p.timestamp.getD []) = true →
      upload_to_heroku (upload_to_heroku wm p net).watermark q net' =
        ⟨(upload_to_heroku wm p net).watermark, false, false⟩) := by
  constructor
  · intro fails rows store store' s c s' c' hT h1 h2
    rw [hT]
    simp only [backfillRun] at h1 h2
    rw [hT] at h2
    split at h1
    · rename_i hc0
      rw [if_pos hc0] at h2
      simp only [Except.ok.injEq, Prod.mk.injEq] at h1 h2
      obtain ⟨hs1, hc1⟩ := h1
      obtain ⟨hs2, hc2⟩ := h2
      subst hs1 hc1 hs2 hc2
      refine ⟨rfl, rfl, ?_⟩
      rw [hT, List.drop_length]
    · rename_i hc0
      rw [if_neg hc0] at h2
      split at h1
      · rename_i heqT
        rw [heqT] at h2
        simp only [Except.ok.injEq, Prod.mk.injEq] at h1 h2
        obtain ⟨hs1, hc1⟩ := h1
        obtain ⟨hs2, hc2⟩ := h2
        subst hs1 hc1 hs2 hc2
        refine ⟨rfl, rfl, ?_⟩
        rw [hT, List.drop_length]
      · rename_i t0 trest heqT
        simp only [heqT] at h2
        split at h1
        rotate_left
        · exact absurd h1 (by simp)
        rename_i existT existL existE heq1 heq2 heq3
        split at h2
        rotate_left
        · exact absurd h2 (by simp)
        rename_i existT' existL' existE' heq1' heq2' heq3'
        rw [heq1] at heq1'
        injection heq1' with heqX
        subst heqX
        split at h1
        · exact absurd h1 (by simp)
        rename_i tIns tSkip heqP
        split at h2
        · exact absurd h2 (by simp)
        rename_i tIns2 tSkip2 heqP2
        rw [heqP] at heqP2
        simp only [Except.ok.injEq, Prod.mk.injEq] at heqP2
        obtain ⟨heqY1, heqY2⟩ := heqP2
        subst heqY1
        subst heqY2
        split at h1
        · exact absurd h1 (by simp)
        split at h2
        · exact absurd h2 (by simp)
        split at h1
        · exact absurd h1 (by simp)
        rename_i lIns lSkip heqL
        split at h2
        · exact absurd h2 (by simp)
        rename_i lIns2 lSkip2 heqL2
        split at h1
        · exact absurd h1 (by simp)
        split at h2
        · exact absurd h2 (by simp)
        split at h1
        · exact absurd h1 (by simp)
        rename_i eIns eSkip heqE
        split at h2
        · exact absurd h2 (by simp)
        rename_i eIns2 eSkip2 heqE2
        split at h1
        · exact absurd h1 (by simp)
        split at h2
        · exact absurd h2 (by simp)
        simp only [Except.ok.injEq, Prod.mk.injEq] at h1 h2
        obtain ⟨hs1, hc1⟩ := h1
        obtain ⟨hs2, hc2⟩ := h2
        subst hs1 hc1 hs2 hc2
        exact ⟨rfl, rfl, rfl⟩
  · intro wm p q net net' hu hle
    have hw := upload_success_watermark wm p net hu
    rw [hw]
    exact upload_skip _ _ _ hle

/-- Witness for C6: one concrete page obeys the bound, and the crash-time
store of the concrete level-page failure keeps the committed temperature rows
while leaving level and environment untouched. -/
theorem C6_paged_commit_witness :
    ([rowTDInsert] : List TempInsert).length ≤ PAGE_SIZE ∧
    ((∃ t, storeAfterTD.temp = emptyStore.temp ++ t) ∧
      storeAfterTD.level = emptyStore.level ∧ storeAfterTD.env = emptyStore.env) :=
  ⟨(C6_paged_commit.1 [rowTDInsert]).1 [rowTDInsert] (by decide),
   (C6_paged_commit.2 failLevel0 [rowTD, rowLL, rowATM] emptyStore
      (.cat .levelC) storeAfterTD ⟨1, 0, 0, 0, 0, 0⟩ (by decide)).2.2.1 rfl⟩

/-- Witness for C3: the bulk half at two concrete stores differing only in
the level table, and the streaming half at the concrete temperature/level
payload pair. -/
theorem C3_family_independence_witness :
    ((⟨1, 0, 0, 0, 0, 0⟩ : BackfillCounts).insTemp =
        (⟨1, 0, 0, 0, 0, 0⟩ : BackfillCounts).insTemp ∧
      (⟨1, 0, 0, 0, 0, 0⟩ : BackfillCounts).skipTemp =
        (⟨1, 0, 0, 0, 0, 0⟩ : BackfillCounts).skipTemp ∧
      storeAfterTD.temp.drop emptyStore.temp.length =
        (⟨[rowTDInsert], [rowLLInsert], []⟩ : Store).temp.drop
          (⟨[], [rowLLInsert], []⟩ : Store).temp.length) ∧
    upload_to_heroku (upload_to_heroku epochTs ptTemp (.status 200)).watermark
        plLevel (.status 200) =
      ⟨(upload_to_heroku epochTs ptTemp (.status 200)).watermark, false, false⟩ :=
  ⟨C3_family_independence.1 noFail [rowTD] emptyStore ⟨[], [rowLLInsert], []⟩
      storeAfterTD ⟨1, 0, 0, 0, 0, 0⟩ ⟨[rowTDInsert], [rowLLInsert], []⟩
      ⟨1, 0, 0, 0, 0, 0⟩ rfl (by decide) (by decide),
   C3_family_independence.2 epochTs ptTemp plLevel (.status 200) (.status 200)
      (by decide) (by decide)⟩
